import Mathlib

/-!
Verification of the TestCursorPlugin batch pipeline
(`src/TestCursorPlugin/index.js`).

The file `index.js` concatenates two successive versions of the plugin;
with JavaScript function-declaration hoisting the later declarations
shadow the earlier ones, so the effective program is the second half
(lines 2113-4395).  Every definition below is a shallow embedding of a
function from that effective half, translated statement by statement.
Host-API behaviour (Photoshop DOM, batchPlay, UXP storage) is
represented by explicit environment records whose fields say which host
calls throw and what values the host would report; the embedded control
flow - the try/catch nesting, the order of attempts, the state updates -
is taken from the source.

JavaScript string primitives (`split`, `trim`, `startsWith`,
`parseFloat`) are embedded as structural functions on character lists
so that concrete instances evaluate inside the kernel.
-/

namespace CursorPlugin

/-! ## JavaScript string primitives -/

/-- The whitespace characters JavaScript `trim()` removes (the ones
that can occur in CSV text). -/
def jsIsSpace (c : Char) : Bool :=
  c = ' ' || c = '\t' || c = '\n' || c = '\r'

/-- JavaScript `s.trim()`. -/
def jsTrim (s : String) : String :=
  ⟨((s.toList.dropWhile jsIsSpace).reverse.dropWhile jsIsSpace).reverse⟩

/-- JavaScript `s.split(sep)` for a one-character separator, on
character lists: splitting keeps empty segments and yields one segment
more than the number of separators. -/
def jsSplitList (sep : Char) : List Char → List (List Char)
  | [] => [[]]
  | c :: t =>
      let r := jsSplitList sep t
      if c = sep then [] :: r
      else (c :: r.headD []) :: r.tail

/-- JavaScript `s.split(sep)`. -/
def jsSplit (sep : Char) (s : String) : List String :=
  (jsSplitList sep s.toList).map (fun l => ⟨l⟩)

/-- JavaScript `s.startsWith(p)`. -/
def strStarts (s p : String) : Bool :=
  p.toList.isPrefixOf s.toList

/-- Model of the `PluginError` class (index.js:2208-2216): a `code`
string, plus the code of the wrapped `originalError` when the site
wraps one, plus, for the font-size failure message, the list of update
method names the message interpolates. -/
structure PluginErr where
  code : String
  original : Option String := none
  attempted : List String := []
  deriving DecidableEq, Repr

/-! ## CSV loader (`loadTextCSV`, index.js:3000-3118)

The pure parsing core of `loadTextCSV`: the function reads the file
content, splits on newlines, validates the header, and builds the row
list.  File I/O, state updates and the relay emission around it do not
affect which rows are parsed.  Rows are JavaScript objects built by
repeated property assignment; we model them as association lists where
assignment overwrites in place. -/

/-- A parsed CSV row: column name to string value, insertion order as
in the source's `headers.forEach`. -/
abbrev Row := List (String × String)

/-- JavaScript property assignment `rowData[k] = v`: overwrite the
binding if the key exists, otherwise append it. -/
def setKey : Row → String → String → Row
  | [], k, v => [(k, v)]
  | (k', v') :: t, k, v =>
      if k' = k then (k, v) :: t else (k', v') :: setKey t k v

/-- JavaScript property read `rowData[k]` (as an `Option`). -/
def getKey (r : Row) (k : String) : Option String :=
  (r.find? (fun p => p.1 = k)).map (fun p => p.2)

/-- Whether JavaScript `parseFloat(s)` returns `NaN`: after skipping
leading whitespace and an optional sign, the string must start with a
digit, a dot followed by a digit, or `Infinity`. -/
def jsParseFloatNaNCore : List Char → Bool
  | [] => true
  | '.' :: rest =>
      match rest with
      | c :: _ => !c.isDigit
      | [] => true
  | 'I' :: 'n' :: 'f' :: 'i' :: 'n' :: 'i' :: 't' :: 'y' :: _ => false
  | c :: _ => !c.isDigit

/-- Strip one optional leading `+` or `-` sign. -/
def stripSign : List Char → List Char
  | '+' :: t => t
  | '-' :: t => t
  | t => t

/-- `isNaN(parseFloat(s))` for a string `s`. -/
def jsParseFloatIsNaN (s : String) : Bool :=
  jsParseFloatNaNCore (stripSign (jsTrim s).toList)

/-- The value stored for one `(header, value)` pair
(index.js:3045-3061): the trimmed value, except that a non-empty value
in a `fontsize*` column that fails `parseFloat` is cleared to `''`. -/
def fieldValue (h v : String) : String :=
  if strStarts h "fontsize" && v ≠ "" && jsParseFloatIsNaN v then "" else v

/-- Build the `rowData` object for one data line's header/value pairs
(index.js:3042-3061). -/
def buildRow (pairs : List (String × String)) : Row :=
  pairs.foldl (fun r p => setKey r p.1 (fieldValue p.1 p.2)) []

/-- The `hasData` flag for one data line (index.js:3043-3052): some
`text*` column holds a non-empty (trimmed) value. -/
def rowHasData (pairs : List (String × String)) : Bool :=
  pairs.any (fun p => strStarts p.1 "text" && p.2 ≠ "")

/-- One iteration of the data-line loop (index.js:3032-3066): skip the
line if it trims to empty, skip it if its field count differs from the
header's, build the row, and keep it only when it has text content. -/
def processLine (headers : List String) (rawLine : String) : Option Row :=
  let line := jsTrim rawLine
  if line = "" then none
  else
    let values := (jsSplit ',' line).map jsTrim
    if values.length ≠ headers.length then none
    else
      let pairs := headers.zip values
      if rowHasData pairs then some (buildRow pairs) else none

/-- Header list of a CSV input (index.js:3010): first line, trimmed,
split on commas, each name trimmed. -/
def csvHeaders (lines : List String) : List String :=
  (jsSplit ',' (jsTrim (lines.headD ""))).map jsTrim

/-- The parsing core of `loadTextCSV` (index.js:3008-3102), on the list
of lines produced by `fileContent.split('\n')`.  Errors thrown inside
the body are wrapped by the catch at index.js:3104-3117 into a
`CSV_LOAD_ERROR` carrying the original error. -/
def loadTextCSVLines (lines : List String) : Except PluginErr (List Row) :=
  let headers := csvHeaders lines
  if (headers.filter (fun h => strStarts h "text")).isEmpty then
    .error { code := "CSV_LOAD_ERROR", original := some "INVALID_CSV_FORMAT" }
  else
    let data := (lines.drop 1).filterMap (processLine headers)
    if data.isEmpty then
      .error { code := "CSV_LOAD_ERROR", original := some "EMPTY_CSV_DATA" }
    else .ok data

/-- `loadTextCSV` on the raw file content (index.js:3008-3009). -/
def loadTextCSV (fileContent : String) : Except PluginErr (List Row) :=
  loadTextCSVLines (jsSplit '\n' fileContent)

/-! ## Folder provisioning (`setupTextOutputFolders`, index.js:2878-2961)

The base output folder's contents are modelled as a list of named
entries with identities; `getEntry` is a lookup that throws (returns
`none` here) when the name is absent, and `createEntry` appends a fresh
entry and fails when the name is taken.  The source tries
`getEntry('Text_PNG')`; a found folder is reused; any error there
(including the explicit `throw` when the entry is not a folder) lands
in the catch that calls `createEntry`, whose failure on the occupied
name is wrapped into `FOLDER_CREATE_ERROR` and then by the outer catch
into `FOLDER_SETUP_ERROR`. -/

/-- Kind of a storage entry. -/
inductive EntryKind
  | folder
  | file
  deriving DecidableEq, Repr

/-- A named entry in the base output folder, with an identity so that
reuse versus re-creation is observable. -/
structure Entry where
  name : String
  kind : EntryKind
  eid : Nat
  deriving DecidableEq, Repr

/-- The base output folder's contents. -/
abbrev FS := List Entry

/-- `baseFolder.getEntry(name)` (found entry or throw). -/
def findEntry (fs : FS) (n : String) : Option Entry :=
  fs.find? (fun e => e.name = n)

/-- A fresh identity for a created entry. -/
def freshId (fs : FS) : Nat :=
  fs.foldl (fun a e => max a (e.eid + 1)) 0

/-- `setupTextOutputFolders` (index.js:2878-2961): returns the
`Text_PNG` folder reference (its identity) and the resulting base
folder contents, or the wrapped setup error. -/
def setupTextOutputFolders (fs : FS) : Except PluginErr (Nat × FS) :=
  match findEntry fs "Text_PNG" with
  | some e =>
      if e.kind = EntryKind.folder then .ok (e.eid, fs)
      else .error { code := "FOLDER_SETUP_ERROR", original := some "FOLDER_CREATE_ERROR" }
  | none =>
      let e : Entry := { name := "Text_PNG", kind := EntryKind.folder, eid := freshId fs }
      .ok (e.eid, fs ++ [e])

/-! ## Font size verification (`verifyFontSize`, index.js:2582-2650)

The function gathers up to two measurements of the layer's font size,
each through a host channel that can throw (the throw is caught locally
and the measurement skipped) or report no value; the whole body sits in
a try whose catch returns `false`.  The environment records what each
channel does and whether anything else in the body throws. -/

/-- Host observations available to `verifyFontSize`. -/
structure VerifyEnv where
  introThrows : Bool
  textItemSize : Except Unit (Option ℚ)
  styleSize : Except Unit (Option ℚ)

/-- One measurement channel: a thrown error is caught and leaves the
measurement variable undefined (index.js:2589-2606). -/
def readChannel : Except Unit (Option ℚ) → Option ℚ
  | .error _ => none
  | .ok v => v

/-- The filtered measurement list (index.js:2609-2612). -/
def sizeMeasurements (env : VerifyEnv) : List ℚ :=
  (readChannel env.textItemSize).toList ++ (readChannel env.styleSize).toList

/-- `verifyFontSize` (index.js:2582-2650): `false` when anything in the
body throws (outer catch), `false` when no measurement was obtained,
otherwise `true` exactly when every measurement is within the 0.1
tolerance of the expected size.  The return type being `Bool` embeds
that the function never propagates an exception. -/
def verifyFontSize (env : VerifyEnv) (expected : ℚ) : Bool :=
  if env.introThrows then false
  else
    let ms := sizeMeasurements env
    if ms.isEmpty then false
    else ms.all (fun m => decide (|m - expected| < 1/10))

/-! ## Batch controller

`processTextReplacement` (index.js:3819-3975) is the handler wired to
the Process button (index.js:3683).  Its all-rows branch
(index.js:3896-3923) reads the start index from
`textReplaceState.status.performance.processedRows`, checks the shared
cancellation flag at the top of every iteration, runs `processTextRow`
for row `i`, and only then sets `processedRows` to `i + 1`.  There is
no per-row catch: an error thrown by `processTextRow` propagates and
ends the run.  The loop is embedded with explicit fuel
(`total - i`, the number of remaining iterations), so runs evaluate in
the kernel.

`processCSV` (index.js:3977-4191) is a second all-rows loop, present in
the source but never called by any handler; it differs in wrapping each
`processTextRow` call in a per-row try/catch that records the error and
continues. -/

/-- How one loop iteration of the batch ends. -/
inductive RunExit
  | completed
  | stopped
  | rowError
  deriving DecidableEq, Repr

/-- Observable outcome of one run of the all-rows loop: the rows for
which `processTextRow` was invoked, the final
`textReplaceState.status.performance.processedRows` cursor, and how the
loop ended. -/
structure RunResult where
  trace : List Nat
  cursor : Nat
  exit : RunExit
  deriving DecidableEq, Repr

/-- Host behaviour of one batch run: total CSV rows, the value of the
shared `stopProcessingRequested` flag when read at the top of iteration
`i` (index.js:3901), and whether `processTextRow` throws at row `i`. -/
structure BatchEnv where
  total : Nat
  stopAt : Nat → Bool
  rowFails : Nat → Bool

/-- The all-rows loop of `processTextReplacement` (index.js:3896-3918),
with `fuel = total - i` remaining iterations.  At the top of iteration
`i` the stop flag is checked and a stop leaves the cursor at `i`; a
`processTextRow` throw also leaves the cursor at `i` (the `processedRows
= i + 1` update at index.js:3917 is only reached on normal return) and
aborts the run; otherwise the cursor advances and the loop continues. -/
def processAllRowsAux (stopAt rowFails : Nat → Bool) : Nat → Nat → RunResult
  | 0, i => { trace := [], cursor := i, exit := .completed }
  | fuel + 1, i =>
      if stopAt i then { trace := [], cursor := i, exit := .stopped }
      else if rowFails i then { trace := [i], cursor := i, exit := .rowError }
      else
        let r := processAllRowsAux stopAt rowFails fuel (i + 1)
        { r with trace := i :: r.trace }

/-- One run of the all-rows branch starting from
`startIndex = processedRows` (index.js:3898). -/
def processAllRows (env : BatchEnv) (startIndex : Nat) : RunResult :=
  processAllRowsAux env.stopAt env.rowFails (env.total - startIndex) startIndex

/-- Whether an `Except` result is a normal return (no raised error). -/
def exceptOk {ε α : Type} : Except ε α → Bool
  | .ok _ => true
  | .error _ => false

/-! ## Row processing (`processTextRow`, index.js:3436-3632)

Per row, the source filters the document's text layers, throws
`NO_ACTIVE_DOC` / `NO_TEXT_LAYERS` when the document or its indexed
text layers are missing, and then processes each layer with data inside
a per-layer try/catch (index.js:3505-3525) that records the error and
continues.  The save block and the relay emission are likewise wrapped
in their own try/catch (index.js:3529-3616, 3598-3608), so only the two
row-level throws escape the function. -/

/-- Host behaviour for one `processTextRow` call. -/
structure RowEnv where
  hasDoc : Bool
  textLayerCount : Nat
  hasFieldData : Nat → Bool
  fieldFails : Nat → Bool
  saveThrows : Bool
  relayFails : Bool

/-- The `RowResult`-like value `processTextRow` returns
(index.js:3620-3626): success flag, layers updated, error count. -/
structure RowOutcome where
  success : Bool
  processed : Nat
  errCount : Nat
  deriving DecidableEq, Repr

/-- `processTextRow` (index.js:3436-3632): throws only on a missing
document or missing text layers; each per-layer failure is appended to
the row's error list and processing continues with the next layer; a
save-block failure is also appended rather than thrown; a relay
emission failure is logged and ignored (`env.relayFails` is
deliberately unread). -/
def processTextRow (env : RowEnv) : Except PluginErr RowOutcome :=
  if env.hasDoc = false then .error { code := "NO_ACTIVE_DOC" }
  else if env.textLayerCount = 0 then .error { code := "NO_TEXT_LAYERS" }
  else
    let idxs := (List.range env.textLayerCount).filter env.hasFieldData
    let processed := (idxs.filter (fun j => !env.fieldFails j)).length
    let fieldErrs := (idxs.filter (fun j => env.fieldFails j)).length
    let saveErrs := if (decide (0 < processed) && env.saveThrows) = true then 1 else 0
    .ok { success := decide (0 < processed), processed := processed,
          errCount := fieldErrs + saveErrs }

/-! ## The uncalled `processCSV` loop (index.js:3977-4191)

Its all-rows branch (index.js:4057-4110) wraps each `processTextRow`
call in a per-row try/catch: a thrown row error is recorded as a failed
result and the loop continues with the next row.  No handler in the
source invokes `processCSV`; the Process button runs
`processTextReplacement` instead. -/

/-- Observable outcome of the `processCSV` all-rows loop. -/
structure CSVRun where
  attempted : List Nat
  processedCount : Nat
  errorCount : Nat
  deriving DecidableEq, Repr

/-- The `processCSV` all-rows loop (index.js:4057-4110) with explicit
fuel: stop-flag check at the top, then `processTextRow`, whose throw is
caught (`errorCount` incremented, loop continues). -/
def processCSVAux (stopAt : Nat → Bool) (rowRes : Nat → Except PluginErr RowOutcome) :
    Nat → Nat → CSVRun
  | 0, _ => { attempted := [], processedCount := 0, errorCount := 0 }
  | fuel + 1, i =>
      if stopAt i then { attempted := [], processedCount := 0, errorCount := 0 }
      else
        let rest := processCSVAux stopAt rowRes fuel (i + 1)
        match rowRes i with
        | .ok r =>
            { attempted := i :: rest.attempted,
              processedCount := (if r.success then 1 else 0) + rest.processedCount,
              errorCount := r.errCount + rest.errorCount }
        | .error _ =>
            { attempted := i :: rest.attempted,
              processedCount := rest.processedCount,
              errorCount := 1 + rest.errorCount }

/-- One run of `processCSV` over `total` rows from row 0
(index.js:4059). -/
def processCSV (total : Nat) (stopAt : Nat → Bool)
    (rowRes : Nat → Except PluginErr RowOutcome) : CSVRun :=
  processCSVAux stopAt rowRes total 0

/-! ## Document export (`saveAsPNG`, index.js:3124-3353)

This is the effective (second) declaration of `saveAsPNG`; it shadows
the earlier one at index.js:1065.  Its whole body is inside a try whose
catch returns `false` (index.js:3348-3352).  Method 1 is the DOM
`saveAs.png`; on its throw, method 2 is the DOM `saveAs.jpg` with a
file-size verification; method 3 (`batchPlay` save, also verified) runs
only when method 2 throws; when method 3 also throws, a diagnostic file
aggregating the three failures is written and `false` is returned
(index.js:3300-3343).  When a method's command succeeds but its
verification fails, control falls off the chain and the JavaScript
function returns `undefined`. -/

/-- A JavaScript value returned by `saveAsPNG`. -/
inductive JSVal
  | vtrue
  | vfalse
  | undef
  deriving DecidableEq, Repr

/-- Host behaviour for one `saveAsPNG` call: whether the document,
folder resolution and file creation succeed, what each save method
does, whether each verification (exists and size > 1000, with a
non-throwing check) passes, and whether the diagnostic write succeeds. -/
structure SaveEnv where
  docPresent : Bool
  folderOk : Bool
  createOk : Bool
  m1 : Except String Unit
  m2 : Except String Unit
  m2verified : Bool
  m3 : Except String Unit
  m3verified : Bool
  diagOk : Bool

/-- Observable outcome of one `saveAsPNG` call: the value returned or
error raised, the save methods attempted in order, and the aggregated
per-method failure messages when the diagnostic file is written.  The
result is an `Except` precisely so that raising an `ExportError` would
be representable - the function never constructs the error case. -/
structure SaveRun where
  result : Except PluginErr JSVal
  attempts : List String
  diagnostic : Option (String × String × String)

/-- `saveAsPNG` (index.js:3124-3353).  Setup failures (no document, no
folder, file creation throw) are swallowed by the outer catch and
return `false`. -/
def saveAsPNG (env : SaveEnv) : SaveRun :=
  if env.docPresent = false then
    { result := .ok JSVal.vfalse, attempts := [], diagnostic := none }
  else if env.folderOk = false then
    { result := .ok JSVal.vfalse, attempts := [], diagnostic := none }
  else if env.createOk = false then
    { result := .ok JSVal.vfalse, attempts := [], diagnostic := none }
  else
    match env.m1 with
    | .ok _ =>
        { result := .ok JSVal.vtrue, attempts := ["DOM API saveAs.png"], diagnostic := none }
    | .error e1 =>
        match env.m2 with
        | .ok _ =>
            if env.m2verified then
              { result := .ok JSVal.vtrue,
                attempts := ["DOM API saveAs.png", "DOM API saveAs.jpg"], diagnostic := none }
            else
              { result := .ok JSVal.undef,
                attempts := ["DOM API saveAs.png", "DOM API saveAs.jpg"], diagnostic := none }
        | .error e2 =>
            match env.m3 with
            | .ok _ =>
                if env.m3verified then
                  { result := .ok JSVal.vtrue,
                    attempts := ["DOM API saveAs.png", "DOM API saveAs.jpg", "batchPlay save"],
                    diagnostic := none }
                else
                  { result := .ok JSVal.undef,
                    attempts := ["DOM API saveAs.png", "DOM API saveAs.jpg", "batchPlay save"],
                    diagnostic := none }
            | .error e3 =>
                if env.diagOk then
                  { result := .ok JSVal.vfalse,
                    attempts := ["DOM API saveAs.png", "DOM API saveAs.jpg", "batchPlay save"],
                    diagnostic := some (e1, e2, e3) }
                else
                  { result := .ok JSVal.vfalse,
                    attempts := ["DOM API saveAs.png", "DOM API saveAs.jpg", "batchPlay save"],
                    diagnostic := none }

/-- A `saveAsPNG` environment with everything healthy and every save
method succeeding. -/
def saveEnvAllOk : SaveEnv :=
  { docPresent := true, folderOk := true, createOk := true,
    m1 := .ok (), m2 := .ok (), m2verified := true,
    m3 := .ok (), m3verified := true, diagOk := true }

/-- A `saveAsPNG` environment where methods 1 and 2 throw and method 3
succeeds with a passing verification. -/
def saveEnvThirdOk : SaveEnv :=
  { docPresent := true, folderOk := true, createOk := true,
    m1 := .error "e1", m2 := .error "e2", m2verified := false,
    m3 := .ok (), m3verified := true, diagOk := true }

/-- A `saveAsPNG` environment where all three save methods throw. -/
def saveEnvAllFail : SaveEnv :=
  { docPresent := true, folderOk := true, createOk := true,
    m1 := .error "e1", m2 := .error "e2", m2verified := false,
    m3 := .error "e3", m3verified := false, diagOk := true }

/-! ## Font-size mutation (`updateFontSize`, index.js:2652-2819)

The function tries three update strategies in order - (a) DOM property
assignment `layer.textItem.size = size` (index.js:2674), (b) a
`batchPlay` command addressed by layer id (index.js:2687-2735), (c) a
`batchPlay` command addressed by property path (index.js:2739-2787).
After each non-throwing attempt it waits `delays.fontUpdate` and sets
`updateSuccess = true` with the comment "Skip verification - assume it
worked": no re-read of the size is performed anywhere, and
`verifyFontSize` is never called.  The method name is pushed onto
`updateMethods` only when the attempt did not throw, so when all three
throw the failure message interpolates an empty list.  On success the
function awaits `writeToMCPRelay` (index.js:2797) with no local
try/catch, so a relay failure is wrapped by the outer catch into the
same `FONT_SIZE_UPDATE_ERROR` as a mutation failure. -/

/-- Host behaviour for one `updateFontSize` call.  `hostSize` is the
size an independent re-read of the layer would report after the
accepted attempt; the embedding never reads it, mirroring the source's
skipped verification. -/
structure FontEnv where
  layerValid : Bool
  sizeNaN : Bool
  s1 : Except String Unit
  s2 : Except String Unit
  s3 : Except String Unit
  relayOk : Bool
  hostSize : ℚ
  requested : ℚ

/-- The strategy cascade of `updateFontSize` (index.js:2672-2787):
first non-throwing strategy wins, carrying the `updateMethods` list,
which holds exactly the names of the strategies that did not throw. -/
def fontStrategyResult (env : FontEnv) : Option (List String) :=
  match env.s1 with
  | .ok _ => some ["DOM API"]
  | .error _ =>
      match env.s2 with
      | .ok _ => some ["batchPlay textStyle"]
      | .error _ =>
          match env.s3 with
          | .ok _ => some ["batchPlay property"]
          | .error _ => none

/-- `updateFontSize` (index.js:2652-2819): invalid layer or `NaN` size,
an exhausted strategy cascade (whose generic `Error` interpolates the
empty `updateMethods` list), and a failed relay emission all surface as
the wrapped `FONT_SIZE_UPDATE_ERROR`; otherwise the list of used
methods is returned. -/
def updateFontSize (env : FontEnv) : Except PluginErr (List String) :=
  if env.layerValid = false then
    .error { code := "FONT_SIZE_UPDATE_ERROR", original := some "INVALID_LAYER" }
  else if env.sizeNaN = true then
    .error { code := "FONT_SIZE_UPDATE_ERROR", original := some "INVALID_FONT_SIZE" }
  else
    match fontStrategyResult env with
    | some methods =>
        if env.relayOk then .ok methods
        else .error { code := "FONT_SIZE_UPDATE_ERROR", original := some "MCP_WRITE_ERROR" }
    | none =>
        .error { code := "FONT_SIZE_UPDATE_ERROR", original := some "Error", attempted := [] }

/-- A font-size environment where strategy (a) does not throw but the
host's actual size after the attempt (24 requested) remains 12. -/
def fontEnvSilentNoop : FontEnv :=
  { layerValid := true, sizeNaN := false, s1 := .ok (), s2 := .error "x",
    s3 := .error "y", relayOk := true, hostSize := 12, requested := 24 }

/-- A font-size environment where the mutation succeeds via strategy
(a) but the relay emission fails. -/
def fontEnvRelayFail : FontEnv :=
  { layerValid := true, sizeNaN := false, s1 := .ok (), s2 := .error "x",
    s3 := .error "y", relayOk := false, hostSize := 24, requested := 24 }

/-- A font-size environment where all three strategies throw. -/
def fontEnvAllFail : FontEnv :=
  { layerValid := true, sizeNaN := false, s1 := .error "a", s2 := .error "b",
    s3 := .error "c", relayOk := true, hostSize := 12, requested := 24 }

/-! ## Relay sink (`writeToMCPRelay`, index.js:2263-2397)

The primary write (create the log file, write the JSON) sits in an
inner try (index.js:2325-2344); its catch performs exactly one fallback
attempt - write to a temporary file, then move it into place
(index.js:2349-2359) - and when that also fails throws the
`FILE_WRITE_ERROR` that the outer catch wraps into `MCP_WRITE_ERROR`.
The missing-data check precedes the try and raises `INVALID_INPUT`
unwrapped; folder-setup and JSON-stringify failures inside the try are
wrapped like every other body error. -/

/-- Host behaviour for one `writeToMCPRelay` call. -/
structure RelayEnv where
  dataPresent : Bool
  setupOk : Bool
  jsonOk : Bool
  primary : Except String Unit
  fallback : Except String Unit

/-- Observable outcome of one `writeToMCPRelay` call: the returned path
or raised error, and the write attempts made, in order. -/
structure RelayRun where
  result : Except PluginErr String
  attempts : List String

/-- `writeToMCPRelay` (index.js:2263-2397). -/
def writeToMCPRelay (env : RelayEnv) : RelayRun :=
  if env.dataPresent = false then
    { result := .error { code := "INVALID_INPUT" }, attempts := [] }
  else if env.setupOk = false then
    { result := .error { code := "MCP_WRITE_ERROR", original := some "RELAY_FOLDER_ERROR" },
      attempts := [] }
  else if env.jsonOk = false then
    { result := .error { code := "MCP_WRITE_ERROR", original := some "JSON_ERROR" },
      attempts := [] }
  else
    match env.primary with
    | .ok _ =>
        { result := .ok "logs/mcp-out.json", attempts := ["createFile+write"] }
    | .error _ =>
        match env.fallback with
        | .ok _ =>
            { result := .ok "logs/mcp-out.json",
              attempts := ["createFile+write", "tempFile+moveTo"] }
        | .error _ =>
            { result := .error { code := "MCP_WRITE_ERROR", original := some "FILE_WRITE_ERROR" },
              attempts := ["createFile+write", "tempFile+moveTo"] }

/-- A healthy relay environment whose primary write fails and whose
fallback write succeeds. -/
def relayEnvFallbackOk : RelayEnv :=
  { dataPresent := true, setupOk := true, jsonOk := true,
    primary := .error "p", fallback := .ok () }

/-- A healthy relay environment where both write attempts fail. -/
def relayEnvBothFail : RelayEnv :=
  { dataPresent := true, setupOk := true, jsonOk := true,
    primary := .error "p", fallback := .error "q" }

/-- A healthy relay environment whose primary write succeeds. -/
def relayEnvPrimaryOk : RelayEnv :=
  { dataPresent := true, setupOk := true, jsonOk := true,
    primary := .ok (), fallback := .ok () }

/-- A row environment with one successful layer, used to show the row
outcome ignores the relay. -/
def rowEnvOneLayer (relayBad : Bool) : RowEnv :=
  { hasDoc := true, textLayerCount := 1, hasFieldData := fun _ => true,
    fieldFails := fun _ => false, saveThrows := false, relayFails := relayBad }

/-- C5: for every CSV input whose header contains zero columns whose
name starts with the content prefix `text`, `loadTextCSV` fails with
the `INVALID_CSV_FORMAT` error (wrapped, like every load failure, into
the `CSV_LOAD_ERROR` raised to the caller) instead of returning a row
sequence. -/
theorem C5_no_text_columns_invalid_format (lines : List String)
    (h : (csvHeaders lines).filter (fun c => strStarts c "text") = []) :
    loadTextCSVLines lines =
      .error { code := "CSV_LOAD_ERROR", original := some "INVALID_CSV_FORMAT" } := by
  simp only [loadTextCSVLines, h, List.isEmpty_nil, if_true]

/-- C5 witness: the concrete CSV `name,size\nfoo,3` has no `text`
column and parsing fails with the wrapped `INVALID_CSV_FORMAT`. -/
theorem C5_witness :
    (csvHeaders ["name,size", "foo,3"]).filter (fun c => strStarts c "text") = [] ∧
    loadTextCSVLines ["name,size", "foo,3"] =
      .error { code := "CSV_LOAD_ERROR", original := some "INVALID_CSV_FORMAT" } :=
  ⟨by decide, C5_no_text_columns_invalid_format _ (by decide)⟩

/-- C6: a data line whose (trimmed, comma-split) field count differs
from the header's is excluded from the parsed sequence, and removing it
from the input leaves the parse result of the remaining lines
unchanged - the surviving rows are exactly the parses of the surviving
lines, in their original order. -/
theorem C6_malformed_line_excluded_order_preserved
    (headerLine bad : String) (pre post : List String)
    (hne : jsTrim bad ≠ "")
    (hcount : ((jsSplit ',' (jsTrim bad)).map jsTrim).length ≠
      (csvHeaders (headerLine :: (pre ++ bad :: post))).length) :
    processLine (csvHeaders (headerLine :: (pre ++ bad :: post))) bad = none ∧
    loadTextCSVLines (headerLine :: (pre ++ bad :: post)) =
      loadTextCSVLines (headerLine :: (pre ++ post)) := by
  have hnone : processLine (csvHeaders (headerLine :: (pre ++ bad :: post))) bad = none := by
    simp only [processLine]
    rw [if_neg hne, if_pos hcount]
  refine ⟨hnone, ?_⟩
  have hh : csvHeaders (headerLine :: (pre ++ bad :: post)) =
      csvHeaders (headerLine :: (pre ++ post)) := rfl
  simp only [loadTextCSVLines, hh, List.drop_succ_cons, List.drop_zero,
    List.filterMap_append, List.filterMap_cons]
  rw [hh] at hnone
  rw [hnone]

/-- C6 witness: in the CSV with header `text1,fontsize1`, the data line
`a,b,c` (three fields against two header columns) is excluded and the
parse equals that of the input without it. -/
theorem C6_witness :
    processLine (csvHeaders ["text1,fontsize1", "hello,12", "a,b,c", "bye,9"]) "a,b,c" = none ∧
    loadTextCSVLines ["text1,fontsize1", "hello,12", "a,b,c", "bye,9"] =
      loadTextCSVLines ["text1,fontsize1", "hello,12", "bye,9"] :=
  C6_malformed_line_excluded_order_preserved "text1,fontsize1" "a,b,c"
    ["hello,12"] ["bye,9"] (by decide) (by decide)

/-- Reading a key after a JavaScript-style assignment: the assigned key
now holds the assigned value, other keys are untouched. -/
theorem getKey_setKey (r : Row) (k v q : String) :
    getKey (setKey r k v) q = if k = q then some v else getKey r q := by
  induction r with
  | nil =>
      by_cases hkq : k = q <;> simp [getKey, setKey, List.find?, hkq]
  | cons p t ih =>
      obtain ⟨a, b⟩ := p
      by_cases hak : a = k
      · subst hak
        by_cases hkq : a = q <;> simp [getKey, setKey, List.find?, hkq]
      · by_cases haq : a = q
        · subst haq
          have hkq : k ≠ a := fun h => hak h.symm
          simp [getKey, setKey, List.find?, hak, hkq]
        · by_cases hkq : k = q
          · subst hkq
            simp only [setKey, if_neg hak]
            simp [getKey, List.find?, haq] at ih ⊢
            simpa [haq] using ih
          · simp only [setKey, if_neg hak]
            simp [getKey, List.find?, haq] at ih ⊢
            simpa [hkq, haq] using ih

/-- Every value readable from a built row comes from one of the line's
header/value pairs, transformed by `fieldValue`. -/
theorem getKey_buildRow (pairs : List (String × String)) (q v : String)
    (h : getKey (buildRow pairs) q = some v) :
    ∃ raw, (q, raw) ∈ pairs ∧ v = fieldValue q raw := by
  suffices haux : ∀ (ps : List (String × String)) (acc : Row),
      getKey (ps.foldl (fun r p => setKey r p.1 (fieldValue p.1 p.2)) acc) q = some v →
      getKey acc q = some v ∨ ∃ raw, (q, raw) ∈ ps ∧ v = fieldValue q raw by
    rcases haux pairs [] h with hacc | hmem
    · simp [getKey, List.find?] at hacc
    · exact hmem
  intro ps
  induction ps with
  | nil => intro acc hacc; exact Or.inl hacc
  | cons p t ih =>
      intro acc hacc
      rcases ih (setKey acc p.1 (fieldValue p.1 p.2)) hacc with hset | ⟨raw, hmem, hv⟩
      · rw [getKey_setKey] at hset
        by_cases hpq : p.1 = q
        · right
          refine ⟨p.2, ?_, ?_⟩
          · have hqp : (q, p.2) = p := by
              rw [← hpq]
            rw [hqp]
            exact List.mem_cons_self p t
          · rw [if_pos hpq] at hset
            rw [← hpq]; exact (Option.some_inj.mp hset).symm
        · rw [if_neg hpq] at hset
          exact Or.inl hset
      · exact Or.inr ⟨raw, List.mem_cons_of_mem _ hmem, hv⟩

/-- C7: in every row that survives parsing, a `fontsize*` field whose
stored value still fails numeric parsing is the empty string (the
loader cleared the unparsable value); and a line with matching field
count is retained in the output whenever at least one of its `text*`
content fields is non-empty, regardless of its `fontsize*` values. -/
theorem C7_nonnumeric_fontsize_cleared_row_retained :
    (∀ (headers : List String) (line : String) (row : Row) (col v : String),
       processLine headers line = some row →
       getKey row col = some v →
       strStarts col "fontsize" = true →
       jsParseFloatIsNaN v = true → v = "") ∧
    (∀ (headers : List String) (line : String),
       jsTrim line ≠ "" →
       ((jsSplit ',' (jsTrim line)).map jsTrim).length = headers.length →
       rowHasData (headers.zip ((jsSplit ',' (jsTrim line)).map jsTrim)) = true →
       (processLine headers line).isSome = true) := by
  constructor
  · intro headers line row col v hp hg hcol hnan
    simp only [processLine] at hp
    split at hp
    · exact absurd hp (by simp)
    · split at hp
      · exact absurd hp (by simp)
      · split at hp
        · have hrow : buildRow (headers.zip ((jsSplit ',' (jsTrim line)).map jsTrim)) = row :=
            Option.some_inj.mp hp
          obtain ⟨raw, _, hv⟩ := getKey_buildRow _ col v (hrow ▸ hg)
          by_cases hcond : (strStarts col "fontsize" && raw ≠ "" && jsParseFloatIsNaN raw) = true
          · rw [hv]
            unfold fieldValue
            rw [if_pos hcond]
          · have hv' : v = raw := by
              rw [hv]
              unfold fieldValue
              rw [if_neg hcond]
            subst hv'
            by_cases hraw : v = ""
            · exact hraw
            · refine absurd ?_ hcond
              simp only [Bool.and_eq_true, decide_eq_true_eq, ne_eq]
              exact ⟨⟨hcol, hraw⟩, hnan⟩
        · exact absurd hp (by simp)
  · intro headers line hne hlen hdata
    simp only [processLine]
    rw [if_neg hne, if_neg (by omega : ¬ ((jsSplit ',' (jsTrim line)).map jsTrim).length ≠ headers.length),
      if_pos hdata]
    rfl

/-- C7 witness: with header `text1,fontsize1`, the line `hello,abc` has
its unparsable font size cleared to the empty string and is retained
because `text1` is non-empty. -/
theorem C7_witness :
    ("" : String) = "" ∧
    (processLine (csvHeaders ["text1,fontsize1", "hello,abc"]) "hello,abc").isSome = true :=
  ⟨C7_nonnumeric_fontsize_cleared_row_retained.1
      (csvHeaders ["text1,fontsize1", "hello,abc"]) "hello,abc"
      [("text1", "hello"), ("fontsize1", "")] "fontsize1" ""
      (by decide) (by decide) (by decide) (by decide),
    C7_nonnumeric_fontsize_cleared_row_retained.2
      (csvHeaders ["text1,fontsize1", "hello,abc"]) "hello,abc"
      (by decide) (by decide) (by decide)⟩

/-- Looking a name up in an extended folder listing falls through to
the extension when the first part does not contain it. -/
theorem findEntry_append_of_none (l1 l2 : FS) (n : String)
    (h : findEntry l1 n = none) :
    findEntry (l1 ++ l2) n = findEntry l2 n := by
  unfold findEntry at h ⊢
  rw [List.find?_append, h]
  rfl

/-- Evaluation of `setupTextOutputFolders` when `Text_PNG` exists and
is a folder: it is reused, nothing is created. -/
theorem setup_found_folder (fs : FS) (e : Entry)
    (hfind : findEntry fs "Text_PNG" = some e)
    (hkind : e.kind = EntryKind.folder) :
    setupTextOutputFolders fs = .ok (e.eid, fs) := by
  unfold setupTextOutputFolders
  rw [hfind]
  simp [hkind]

/-- Evaluation of `setupTextOutputFolders` when the name is taken by a
non-folder entry: the wrapped conflict error. -/
theorem setup_found_nonfolder (fs : FS) (e : Entry)
    (hfind : findEntry fs "Text_PNG" = some e)
    (hkind : e.kind ≠ EntryKind.folder) :
    setupTextOutputFolders fs =
      .error { code := "FOLDER_SETUP_ERROR", original := some "FOLDER_CREATE_ERROR" } := by
  unfold setupTextOutputFolders
  rw [hfind]
  simp [hkind]

/-- Evaluation of `setupTextOutputFolders` when `Text_PNG` is absent:
the folder is created with a fresh identity. -/
theorem setup_not_found (fs : FS)
    (hfind : findEntry fs "Text_PNG" = none) :
    setupTextOutputFolders fs =
      .ok (freshId fs,
        fs ++ [{ name := "Text_PNG", kind := EntryKind.folder, eid := freshId fs }]) := by
  unfold setupTextOutputFolders
  rw [hfind]

/-- C8: folder provisioning is idempotent - a successful run leaves a
state on which a second run returns the same folder reference and the
same state (the existing folder is reused, nothing is created twice) -
and when the name `Text_PNG` is taken by a non-folder entry the
operation fails with the wrapped folder-conflict error. -/
theorem C8_setup_folders_idempotent_or_conflict :
    (∀ (fs : FS) (r : Nat) (fs' : FS),
       setupTextOutputFolders fs = .ok (r, fs') →
       setupTextOutputFolders fs' = .ok (r, fs')) ∧
    (∀ (fs : FS) (e : Entry),
       findEntry fs "Text_PNG" = some e →
       e.kind ≠ EntryKind.folder →
       setupTextOutputFolders fs =
         .error { code := "FOLDER_SETUP_ERROR", original := some "FOLDER_CREATE_ERROR" }) := by
  constructor
  · intro fs r fs' hok
    cases hfind : findEntry fs "Text_PNG" with
    | some e =>
        by_cases hkind : e.kind = EntryKind.folder
        · rw [setup_found_folder fs e hfind hkind] at hok
          obtain ⟨hr, hfs⟩ : e.eid = r ∧ fs = fs' := by
            simpa using hok
          subst hfs
          rw [setup_found_folder fs e hfind hkind, hr]
        · rw [setup_found_nonfolder fs e hfind hkind] at hok
          exact absurd hok (by simp)
    | none =>
        rw [setup_not_found fs hfind] at hok
        obtain ⟨hr, hfs⟩ : freshId fs = r ∧
            fs ++ [{ name := "Text_PNG", kind := EntryKind.folder, eid := freshId fs }] = fs' := by
          simpa using hok
        have hfind' : findEntry fs' "Text_PNG" =
            some { name := "Text_PNG", kind := EntryKind.folder, eid := freshId fs } := by
          rw [← hfs, findEntry_append_of_none fs _ _ hfind]
          rfl
        rw [setup_found_folder fs' _ hfind' rfl]
        simp [hr]
  · intro fs e hfind hkind
    exact setup_found_nonfolder fs e hfind hkind

/-- C8 witness: provisioning an empty base folder creates `Text_PNG`
with identity 0 and a second run reuses it unchanged; a base folder
where `Text_PNG` is a plain file makes provisioning fail. -/
theorem C8_witness :
    setupTextOutputFolders
        [{ name := "Text_PNG", kind := EntryKind.folder, eid := 0 }] =
      .ok (0, [{ name := "Text_PNG", kind := EntryKind.folder, eid := 0 }]) ∧
    setupTextOutputFolders [{ name := "Text_PNG", kind := EntryKind.file, eid := 5 }] =
      .error { code := "FOLDER_SETUP_ERROR", original := some "FOLDER_CREATE_ERROR" } :=
  ⟨C8_setup_folders_idempotent_or_conflict.1 [] 0
      [{ name := "Text_PNG", kind := EntryKind.folder, eid := 0 }] rfl,
    C8_setup_folders_idempotent_or_conflict.2
      [{ name := "Text_PNG", kind := EntryKind.file, eid := 5 }]
      { name := "Text_PNG", kind := EntryKind.file, eid := 5 }
      (by decide) (by decide)⟩

/-- C10: `verifyFontSize` is a total boolean verdict - for every
environment, including ones where the host channels throw, it returns
`true` exactly when nothing outside the guarded channel reads threw,
at least one measurement was obtained, and every obtained measurement
is within tolerance 0.1 of the expected size; in every other case
(including zero obtainable measurements) it returns `false` rather
than propagating an error. -/
theorem C10_verifyFontSize_total_boolean (env : VerifyEnv) (expected : ℚ) :
    verifyFontSize env expected = true ↔
      (env.introThrows = false ∧ sizeMeasurements env ≠ [] ∧
       ∀ m ∈ sizeMeasurements env, |m - expected| < 1/10) := by
  unfold verifyFontSize
  by_cases hintro : env.introThrows
  · simp [hintro]
  · simp only [hintro, if_false, Bool.false_eq_true, false_and, List.isEmpty_eq_true,
      List.all_eq_true, decide_eq_true_eq]
    by_cases hempty : sizeMeasurements env = []
    · simp [hempty]
    · simp [hempty, hintro]

/-- Unfolding one iteration of the loop while rows remain. -/
theorem processAllRows_step (env : BatchEnv) (i : Nat) (hlt : i < env.total) :
    processAllRows env i =
      if env.stopAt i then { trace := [], cursor := i, exit := .stopped }
      else if env.rowFails i then { trace := [i], cursor := i, exit := .rowError }
      else
        let r := processAllRows env (i + 1)
        { r with trace := i :: r.trace } := by
  unfold processAllRows
  have hfuel : env.total - i = (env.total - (i + 1)) + 1 := by omega
  rw [hfuel]
  rfl

/-- C1: in the all-rows batch loop, if no stop and no row error occurs
in rows `start ≤ j < i` and the cancellation flag is observed at the
top of iteration `i`, the run halts with the processed-row cursor equal
to `i` (not `i + 1`); since a new invocation reads its start index from
that cursor, a resumed run whose flag is no longer set begins by
processing row `i` itself. -/
theorem C1_stop_preserves_resume_cursor (env : BatchEnv) (start i : Nat)
    (hsi : start ≤ i) (hlt : i < env.total)
    (hclean : ∀ j, start ≤ j → j < i → env.stopAt j = false ∧ env.rowFails j = false)
    (hstop : env.stopAt i = true) :
    (processAllRows env start).cursor = i ∧
    (processAllRows env start).exit = .stopped ∧
    ∀ env2 : BatchEnv, env2.total = env.total → env2.stopAt i = false →
      (processAllRows env2 (processAllRows env start).cursor).trace.head? = some i := by
  have key : ∀ (d s : Nat), s + d < env.total →
      (∀ j, s ≤ j → j < s + d → env.stopAt j = false ∧ env.rowFails j = false) →
      env.stopAt (s + d) = true →
      (processAllRows env s).cursor = s + d ∧
      (processAllRows env s).exit = RunExit.stopped := by
    intro d
    induction d with
    | zero =>
        intro s hslt hsclean hsstop
        simp only [Nat.add_zero] at hslt hsstop ⊢
        rw [processAllRows_step env s hslt, if_pos hsstop]
        exact ⟨rfl, rfl⟩
    | succ d ih =>
        intro s hslt hsclean hsstop
        have hj := hsclean s (le_refl s) (by omega)
        rw [processAllRows_step env s (by omega),
          if_neg (by simp [hj.1] : ¬ env.stopAt s = true),
          if_neg (by simp [hj.2] : ¬ env.rowFails s = true)]
        have h1 : s + (d + 1) = (s + 1) + d := by omega
        have hrec := ih (s + 1) (by omega)
          (fun j ha hb => hsclean j (by omega) (by omega)) (h1 ▸ hsstop)
        constructor
        · show (processAllRows env (s + 1)).cursor = s + (d + 1)
          rw [h1]
          exact hrec.1
        · show (processAllRows env (s + 1)).exit = RunExit.stopped
          exact hrec.2
  have he : start + (i - start) = i := by omega
  obtain ⟨hcur, hexit⟩ := key (i - start) start (by omega)
    (fun j h1 h2 => hclean j h1 (by omega)) (by rw [he]; exact hstop)
  rw [he] at hcur
  refine ⟨hcur, hexit, ?_⟩
  intro env2 htot hstop2
  rw [hcur, processAllRows_step env2 i (by rw [htot]; exact hlt),
    if_neg (by simp [hstop2] : ¬ env2.stopAt i = true)]
  by_cases hf : env2.rowFails i = true
  · rw [if_pos hf]
    rfl
  · rw [if_neg hf]
    rfl

/-- C1 witness: three rows, a stop request observed at the top of
iteration 1 after row 0 completes: the run halts with cursor 1 and
exit `stopped`, and a resumed run (flag reset) processes row 1 first. -/
theorem C1_witness :
    (processAllRows ⟨3, fun j => j == 1, fun _ => false⟩ 0).cursor = 1 ∧
    (processAllRows ⟨3, fun j => j == 1, fun _ => false⟩ 0).exit = RunExit.stopped ∧
    (processAllRows ⟨3, fun _ => false, fun _ => false⟩
        (processAllRows ⟨3, fun j => j == 1, fun _ => false⟩ 0).cursor).trace.head? =
      some 1 := by
  have h := C1_stop_preserves_resume_cursor ⟨3, fun j => j == 1, fun _ => false⟩ 0 1
    (by omega) (by decide)
    (fun j h1 h2 => by
      have hj0 : j = 0 := by omega
      subst hj0
      exact ⟨rfl, rfl⟩)
    rfl
  exact ⟨h.1, h.2.1, h.2.2 ⟨3, fun _ => false, fun _ => false⟩ rfl rfl⟩

/-- A clean prefix (no stop, no row error in `start ≤ j < i`) only adds
processed rows in front: cursor and exit of the run from `start` agree
with those of the run from `i`. -/
theorem processAllRows_skips_clean_rows (env : BatchEnv) (start i : Nat)
    (hsi : start ≤ i) (hil : i ≤ env.total)
    (hclean : ∀ j, start ≤ j → j < i → env.stopAt j = false ∧ env.rowFails j = false) :
    (processAllRows env start).cursor = (processAllRows env i).cursor ∧
    (processAllRows env start).exit = (processAllRows env i).exit := by
  have key : ∀ (d s : Nat), s + d ≤ env.total →
      (∀ j, s ≤ j → j < s + d → env.stopAt j = false ∧ env.rowFails j = false) →
      (processAllRows env s).cursor = (processAllRows env (s + d)).cursor ∧
      (processAllRows env s).exit = (processAllRows env (s + d)).exit := by
    intro d
    induction d with
    | zero =>
        intro s hslt hsclean
        exact ⟨by rw [Nat.add_zero], by rw [Nat.add_zero]⟩
    | succ d ih =>
        intro s hslt hsclean
        have hj := hsclean s (le_refl s) (by omega)
        rw [processAllRows_step env s (by omega),
          if_neg (by simp [hj.1] : ¬ env.stopAt s = true),
          if_neg (by simp [hj.2] : ¬ env.rowFails s = true)]
        have h1 : s + (d + 1) = (s + 1) + d := by omega
        have hrec := ih (s + 1) (by omega)
          (fun j ha hb => hsclean j (by omega) (by omega))
        constructor
        · show (processAllRows env (s + 1)).cursor = (processAllRows env (s + (d + 1))).cursor
          rw [h1]
          exact hrec.1
        · show (processAllRows env (s + 1)).exit = (processAllRows env (s + (d + 1))).exit
          rw [h1]
          exact hrec.2
  have he : start + (i - start) = i := by omega
  have hk := key (i - start) start (by omega) (fun j h1 h2 => hclean j h1 (by omega))
  rw [he] at hk
  exact hk

/-- C9 counterexample: in the effective all-rows loop of
`processTextReplacement` (no per-row catch), a batch of two rows whose
row 0 throws a row-level error (e.g. `NO_TEXT_LAYERS`) halts with exit
`rowError` after invoking `processTextRow` only for row 0 - row 1 is
never attempted, contradicting the claim that an error raised while
processing one row is caught at the row boundary and processing
continues with the next row. -/
theorem C9_counterexample :
    (processAllRows ⟨2, fun _ => false, fun j => j == 0⟩ 0).exit = RunExit.rowError ∧
    (processAllRows ⟨2, fun _ => false, fun j => j == 0⟩ 0).trace = [0] := by
  decide

/-- C9 (amended): field-level errors never halt a row - whenever the
document and its text layers are present, `processTextRow` returns
normally with the per-field failures recorded in its error count - and
in the (uncalled) `processCSV` loop a thrown row error is caught at the
row boundary and the set of attempted rows is unaffected by which rows
throw; but in the effective `processTextReplacement` loop a row-level
error at row `i` (first disturbance after a clean prefix) aborts the
whole batch with the cursor left at `i`. -/
theorem C9_field_errors_contained_row_errors_halt :
    (∀ env : RowEnv, env.hasDoc = true → env.textLayerCount ≠ 0 →
       exceptOk (processTextRow env) = true) ∧
    (∀ (total : Nat) (stopAt : Nat → Bool)
       (r1 r2 : Nat → Except PluginErr RowOutcome),
       (processCSV total stopAt r1).attempted = (processCSV total stopAt r2).attempted) ∧
    (∀ (env : BatchEnv) (start i : Nat), start ≤ i → i < env.total →
       (∀ j, start ≤ j → j < i → env.stopAt j = false ∧ env.rowFails j = false) →
       env.stopAt i = false → env.rowFails i = true →
       (processAllRows env start).exit = RunExit.rowError ∧
       (processAllRows env start).cursor = i) := by
  refine ⟨?_, ?_, ?_⟩
  · intro env hdoc hlayers
    unfold processTextRow
    rw [if_neg (by simp [hdoc]), if_neg hlayers]
    rfl
  · intro total stopAt r1 r2
    unfold processCSV
    suffices haux : ∀ (fuel i : Nat),
        (processCSVAux stopAt r1 fuel i).attempted =
        (processCSVAux stopAt r2 fuel i).attempted by
      exact haux total 0
    intro fuel
    induction fuel with
    | zero => intro i; rfl
    | succ fuel ih =>
        intro i
        unfold processCSVAux
        by_cases hs : stopAt i = true
        · rw [if_pos hs, if_pos hs]
        · rw [if_neg hs, if_neg hs]
          cases r1 i <;> cases r2 i <;>
            simp only [] <;> rw [ih (i + 1)]
  · intro env start i hsi hlt hclean hstopi hfail
    obtain ⟨hcur, hexit⟩ := processAllRows_skips_clean_rows env start i hsi (by omega) hclean
    rw [processAllRows_step env i hlt,
      if_neg (by simp [hstopi] : ¬ env.stopAt i = true), if_pos hfail] at hcur hexit
    exact ⟨hexit, hcur⟩

/-- C9 witness: a row whose only layer fails still returns normally; a
`processCSV` run attempts the same rows whether its rows throw or not;
and a `processTextReplacement` run with a throwing row 0 exits with
`rowError` at cursor 0. -/
theorem C9_witness :
    exceptOk (processTextRow
      { hasDoc := true, textLayerCount := 1, hasFieldData := fun _ => true,
        fieldFails := fun _ => true, saveThrows := false, relayFails := false }) = true ∧
    (processCSV 2 (fun _ => false) (fun _ => .ok { success := true, processed := 1, errCount := 0 })).attempted =
      (processCSV 2 (fun _ => false) (fun _ => .error { code := "NO_TEXT_LAYERS" })).attempted ∧
    (processAllRows ⟨2, fun _ => false, fun j => j == 0⟩ 0).exit = RunExit.rowError ∧
    (processAllRows ⟨2, fun _ => false, fun j => j == 0⟩ 0).cursor = 0 := by
  refine ⟨?_, ?_, ?_⟩
  · exact C9_field_errors_contained_row_errors_halt.1 _ rfl (by decide)
  · exact C9_field_errors_contained_row_errors_halt.2.1 2 (fun _ => false) _ _
  · exact C9_field_errors_contained_row_errors_halt.2.2 ⟨2, fun _ => false, fun j => j == 0⟩ 0 0
      (by omega) (by decide) (fun j h1 h2 => absurd h2 (by omega)) rfl rfl

/-- C2 counterexample: with a valid document and folder and all three
save methods throwing, the effective `saveAsPNG` returns the value
`false` (after writing the diagnostic file listing the three failures)
- no `ExportError` (or any error) is raised to the caller,
contradicting the claim that the export operation raises an
`ExportError` once every fallback strategy has failed. -/
theorem C2_counterexample :
    (saveAsPNG saveEnvAllFail).result = Except.ok JSVal.vfalse ∧
    (saveAsPNG saveEnvAllFail).diagnostic = some ("e1", "e2", "e3") :=
  ⟨rfl, rfl⟩

/-- C2 (amended): the effective `saveAsPNG` attempts its strategies in
the fixed order DOM PNG, DOM JPEG, batchPlay - strategy 2 only after
strategy 1 throws and strategy 3 only after strategy 2 throws, stopping
at the first accepted success - and it never raises an error: when all
three strategies throw it aggregates every attempted strategy's failure
into a diagnostic file and returns the value `false` instead of raising
an `ExportError`. -/
theorem C2_export_fallback_order_never_raises (env : SaveEnv)
    (hdoc : env.docPresent = true) (hfold : env.folderOk = true)
    (hcreate : env.createOk = true) :
    (∀ u, env.m1 = .ok u →
       (saveAsPNG env).attempts = ["DOM API saveAs.png"] ∧
       (saveAsPNG env).result = .ok JSVal.vtrue) ∧
    (∀ e1 u, env.m1 = .error e1 → env.m2 = .ok u →
       (saveAsPNG env).attempts = ["DOM API saveAs.png", "DOM API saveAs.jpg"]) ∧
    (∀ e1 e2, env.m1 = .error e1 → env.m2 = .error e2 →
       (saveAsPNG env).attempts =
         ["DOM API saveAs.png", "DOM API saveAs.jpg", "batchPlay save"]) ∧
    (∀ e1 e2 e3, env.m1 = .error e1 → env.m2 = .error e2 → env.m3 = .error e3 →
       env.diagOk = true →
       (saveAsPNG env).result = .ok JSVal.vfalse ∧
       (saveAsPNG env).diagnostic = some (e1, e2, e3)) ∧
    exceptOk (saveAsPNG env).result = true := by
  have hred : saveAsPNG env =
      (match env.m1 with
        | Except.ok _ =>
            ({ result := .ok JSVal.vtrue, attempts := ["DOM API saveAs.png"],
               diagnostic := none } : SaveRun)
        | Except.error e1 =>
            match env.m2 with
            | Except.ok _ =>
                if env.m2verified then
                  { result := .ok JSVal.vtrue,
                    attempts := ["DOM API saveAs.png", "DOM API saveAs.jpg"],
                    diagnostic := none }
                else
                  { result := .ok JSVal.undef,
                    attempts := ["DOM API saveAs.png", "DOM API saveAs.jpg"],
                    diagnostic := none }
            | Except.error e2 =>
                match env.m3 with
                | Except.ok _ =>
                    if env.m3verified then
                      { result := .ok JSVal.vtrue,
                        attempts := ["DOM API saveAs.png", "DOM API saveAs.jpg", "batchPlay save"],
                        diagnostic := none }
                    else
                      { result := .ok JSVal.undef,
                        attempts := ["DOM API saveAs.png", "DOM API saveAs.jpg", "batchPlay save"],
                        diagnostic := none }
                | Except.error e3 =>
                    if env.diagOk then
                      { result := .ok JSVal.vfalse,
                        attempts := ["DOM API saveAs.png", "DOM API saveAs.jpg", "batchPlay save"],
                        diagnostic := some (e1, e2, e3) }
                    else
                      { result := .ok JSVal.vfalse,
                        attempts := ["DOM API saveAs.png", "DOM API saveAs.jpg", "batchPlay save"],
                        diagnostic := none }) := by
    unfold saveAsPNG
    rw [if_neg (by simp [hdoc]), if_neg (by simp [hfold]), if_neg (by simp [hcreate])]
  refine ⟨?_, ?_, ?_, ?_, ?_⟩
  · intro u h1
    rw [hred, h1]
    exact ⟨rfl, rfl⟩
  · intro e1 u h1 h2
    rw [hred, h1, h2]
    cases hv : env.m2verified <;> simp [hv]
  · intro e1 e2 h1 h2
    rw [hred, h1, h2]
    cases h3 : env.m3 with
    | ok u => cases hv : env.m3verified <;> simp [hv]
    | error e3 => cases hd : env.diagOk <;> simp [hd]
  · intro e1 e2 e3 h1 h2 h3 hd
    rw [hred, h1, h2, h3]
    simp [hd]
  · rw [hred]
    cases h1 : env.m1 with
    | ok u => rfl
    | error e1 =>
        cases h2 : env.m2 with
        | ok u => cases hv : env.m2verified <;> simp [hv, exceptOk]
        | error e2 =>
            cases h3 : env.m3 with
            | ok u => cases hv : env.m3verified <;> simp [hv, exceptOk]
            | error e3 => cases hd : env.diagOk <;> simp [hd, exceptOk]

/-- C2 witness: with strategy 1 succeeding only it is attempted; with
strategies 1 and 2 throwing and 3 succeeding all three are attempted;
with all three throwing the result is the value `false` with the full
diagnostic. -/
theorem C2_witness :
    (saveAsPNG saveEnvAllOk).attempts = ["DOM API saveAs.png"] ∧
    (saveAsPNG saveEnvThirdOk).attempts =
      ["DOM API saveAs.png", "DOM API saveAs.jpg", "batchPlay save"] ∧
    (saveAsPNG saveEnvAllFail).result = .ok JSVal.vfalse :=
  ⟨((C2_export_fallback_order_never_raises saveEnvAllOk rfl rfl rfl).1 () rfl).1,
    (C2_export_fallback_order_never_raises saveEnvThirdOk rfl rfl rfl).2.2.1 "e1" "e2" rfl rfl,
    ((C2_export_fallback_order_never_raises saveEnvAllFail rfl rfl rfl).2.2.2.1 "e1" "e2" "e3"
      rfl rfl rfl rfl).1⟩

/-- C3 counterexample: strategy (a) does not throw and is accepted,
`updateFontSize` reports success - yet the size an independent re-read
would return (12) differs from the requested 24 by far more than the
0.1 tolerance.  The code performs no post-attempt re-read, so it
accepts an attempt the claimed verification would reject; moreover
when all three strategies throw, the raised error's interpolated
strategy list is empty, not the list of attempted strategy names. -/
theorem C3_counterexample :
    updateFontSize fontEnvSilentNoop = .ok ["DOM API"] ∧
    ¬ (|fontEnvSilentNoop.hostSize - fontEnvSilentNoop.requested| < 1/10) ∧
    updateFontSize fontEnvAllFail =
      .error { code := "FONT_SIZE_UPDATE_ERROR", original := some "Error", attempted := [] } :=
  ⟨rfl, by norm_num [fontEnvSilentNoop], rfl⟩

/-- C3 (amended): `updateFontSize` tries its three strategies in the
fixed order (a) DOM property assignment, (b) `batchPlay` by layer id,
(c) `batchPlay` by property path, each later strategy only after the
previous one throws; after a non-throwing attempt it waits the settle
delay and accepts it with no re-read verification - its outcome is
independent of the size a re-read would return - and when all three
strategies throw it raises the wrapped mutation error whose
interpolated strategy-name list is empty (names are recorded only for
strategies that did not throw); a success additionally requires the
relay emission not to fail. -/
theorem C3_font_strategies_fixed_order_no_verification (env : FontEnv)
    (hlv : env.layerValid = true) (hnan : env.sizeNaN = false) :
    (∀ u, env.s1 = .ok u → env.relayOk = true →
       updateFontSize env = .ok ["DOM API"]) ∧
    (∀ e1 u, env.s1 = .error e1 → env.s2 = .ok u → env.relayOk = true →
       updateFontSize env = .ok ["batchPlay textStyle"]) ∧
    (∀ e1 e2 u, env.s1 = .error e1 → env.s2 = .error e2 → env.s3 = .ok u →
       env.relayOk = true →
       updateFontSize env = .ok ["batchPlay property"]) ∧
    (∀ e1 e2 e3, env.s1 = .error e1 → env.s2 = .error e2 → env.s3 = .error e3 →
       updateFontSize env =
         .error { code := "FONT_SIZE_UPDATE_ERROR", original := some "Error", attempted := [] }) ∧
    (∀ q : ℚ, updateFontSize { env with hostSize := q } = updateFontSize env) := by
  have hred : updateFontSize env =
      (match fontStrategyResult env with
        | some methods =>
            if env.relayOk then Except.ok methods
            else Except.error { code := "FONT_SIZE_UPDATE_ERROR", original := some "MCP_WRITE_ERROR" }
        | none =>
            Except.error
              { code := "FONT_SIZE_UPDATE_ERROR", original := some "Error", attempted := [] }) := by
    unfold updateFontSize
    rw [if_neg (by simp [hlv]), if_neg (by simp [hnan])]
  refine ⟨?_, ?_, ?_, ?_, ?_⟩
  · intro u h1 hr
    rw [hred]
    unfold fontStrategyResult
    rw [h1]
    simp [hr]
  · intro e1 u h1 h2 hr
    rw [hred]
    unfold fontStrategyResult
    rw [h1, h2]
    simp [hr]
  · intro e1 e2 u h1 h2 h3 hr
    rw [hred]
    unfold fontStrategyResult
    rw [h1, h2, h3]
    simp [hr]
  · intro e1 e2 e3 h1 h2 h3
    rw [hred]
    unfold fontStrategyResult
    rw [h1, h2, h3]
  · intro q
    rfl

/-- C3 witness: each strategy wins exactly when the previous ones
throw, and the result never depends on the host's re-readable size. -/
theorem C3_witness :
    updateFontSize fontEnvSilentNoop = .ok ["DOM API"] ∧
    updateFontSize fontEnvAllFail =
      .error { code := "FONT_SIZE_UPDATE_ERROR", original := some "Error", attempted := [] } ∧
    updateFontSize { fontEnvSilentNoop with hostSize := 24 } =
      updateFontSize fontEnvSilentNoop :=
  ⟨(C3_font_strategies_fixed_order_no_verification fontEnvSilentNoop rfl rfl).1 () rfl rfl,
    (C3_font_strategies_fixed_order_no_verification fontEnvAllFail rfl rfl).2.2.2.1
      "a" "b" "c" rfl rfl rfl,
    (C3_font_strategies_fixed_order_no_verification fontEnvSilentNoop rfl rfl).2.2.2.2 24⟩

/-- C4 counterexample: the mutation succeeds via strategy (a), only the
relay emission fails - and `updateFontSize` raises the wrapped
`FONT_SIZE_UPDATE_ERROR` carrying the relay error, so the field fails.
This contradicts the claim that every pipeline stage emitting to the
relay swallows/logs the relay error rather than letting it abort field
processing: the `updateFontSize` stage (index.js:2794-2810) has no
local catch around its emission. -/
theorem C4_counterexample :
    updateFontSize fontEnvRelayFail =
      .error { code := "FONT_SIZE_UPDATE_ERROR", original := some "MCP_WRITE_ERROR" } :=
  rfl

/-- C4 (amended): `writeToMCPRelay` itself behaves as claimed - exactly
one temp-file-then-move retry after a primary write failure, a wrapped
error raised only when both attempts fail, no retry after a primary
success - and `processTextRow`'s relay emission is swallowed (its
outcome is independent of the relay), but a relay failure is not
harmless everywhere: in `updateFontSize` a failed emission after a
successful mutation raises the wrapped mutation error and aborts the
field. -/
theorem C4_relay_retry_wrapped_not_always_swallowed (env : RelayEnv)
    (hdata : env.dataPresent = true) (hsetup : env.setupOk = true)
    (hjson : env.jsonOk = true) :
    (∀ u, env.primary = .ok u →
       (writeToMCPRelay env).attempts = ["createFile+write"] ∧
       exceptOk (writeToMCPRelay env).result = true) ∧
    (∀ e u, env.primary = .error e → env.fallback = .ok u →
       (writeToMCPRelay env).attempts = ["createFile+write", "tempFile+moveTo"] ∧
       exceptOk (writeToMCPRelay env).result = true) ∧
    (∀ e e', env.primary = .error e → env.fallback = .error e' →
       (writeToMCPRelay env).attempts = ["createFile+write", "tempFile+moveTo"] ∧
       (writeToMCPRelay env).result =
         .error { code := "MCP_WRITE_ERROR", original := some "FILE_WRITE_ERROR" }) ∧
    (∀ (renv : RowEnv) (b1 b2 : Bool),
       processTextRow { renv with relayFails := b1 } =
       processTextRow { renv with relayFails := b2 }) ∧
    (∀ (fenv : FontEnv) (u : Unit), fenv.layerValid = true → fenv.sizeNaN = false →
       fenv.s1 = .ok u → fenv.relayOk = false →
       updateFontSize fenv =
         .error { code := "FONT_SIZE_UPDATE_ERROR", original := some "MCP_WRITE_ERROR" }) := by
  have hred : writeToMCPRelay env =
      (match env.primary with
        | Except.ok _ =>
            ({ result := .ok "logs/mcp-out.json", attempts := ["createFile+write"] } : RelayRun)
        | Except.error _ =>
            match env.fallback with
            | Except.ok _ =>
                { result := .ok "logs/mcp-out.json",
                  attempts := ["createFile+write", "tempFile+moveTo"] }
            | Except.error _ =>
                { result :=
                    .error { code := "MCP_WRITE_ERROR", original := some "FILE_WRITE_ERROR" },
                  attempts := ["createFile+write", "tempFile+moveTo"] }) := by
    unfold writeToMCPRelay
    rw [if_neg (by simp [hdata]), if_neg (by simp [hsetup]), if_neg (by simp [hjson])]
  refine ⟨?_, ?_, ?_, ?_, ?_⟩
  · intro u h1
    rw [hred, h1]
    exact ⟨rfl, rfl⟩
  · intro e u h1 h2
    rw [hred, h1, h2]
    exact ⟨rfl, rfl⟩
  · intro e e' h1 h2
    rw [hred, h1, h2]
    exact ⟨rfl, rfl⟩
  · intro renv b1 b2
    rfl
  · intro fenv u hlv hnan h1 hr
    unfold updateFontSize
    rw [if_neg (by simp [hlv]), if_neg (by simp [hnan])]
    unfold fontStrategyResult
    rw [h1]
    simp [hr]

/-- C4 witness: one retry then success, both-fail wrapping, a
relay-independent row outcome, and the field-aborting emission in
`updateFontSize`. -/
theorem C4_witness :
    (writeToMCPRelay relayEnvPrimaryOk).attempts = ["createFile+write"] ∧
    (writeToMCPRelay relayEnvFallbackOk).attempts = ["createFile+write", "tempFile+moveTo"] ∧
    (writeToMCPRelay relayEnvBothFail).result =
      .error { code := "MCP_WRITE_ERROR", original := some "FILE_WRITE_ERROR" } ∧
    processTextRow (rowEnvOneLayer true) = processTextRow (rowEnvOneLayer false) ∧
    updateFontSize fontEnvRelayFail =
      .error { code := "FONT_SIZE_UPDATE_ERROR", original := some "MCP_WRITE_ERROR" } := by
  refine ⟨?_, ?_, ?_, ?_, ?_⟩
  · exact ((C4_relay_retry_wrapped_not_always_swallowed relayEnvPrimaryOk rfl rfl rfl).1 () rfl).1
  · exact ((C4_relay_retry_wrapped_not_always_swallowed relayEnvFallbackOk rfl rfl rfl).2.1
      "p" () rfl rfl).1
  · exact ((C4_relay_retry_wrapped_not_always_swallowed relayEnvBothFail rfl rfl rfl).2.2.1
      "p" "q" rfl rfl).2
  · exact (C4_relay_retry_wrapped_not_always_swallowed relayEnvPrimaryOk rfl rfl rfl).2.2.2.1
      (rowEnvOneLayer false) true false
  · exact (C4_relay_retry_wrapped_not_always_swallowed relayEnvPrimaryOk rfl rfl rfl).2.2.2.2
      fontEnvRelayFail () rfl rfl rfl rfl

end CursorPlugin
